import Mathlib

/-
Verification of the pace_timer clock core (src/pace_timer.py).

The shared mutable state of the program is the module-level globals
`_start_epoch`, `_manual_elapsed_offset`, `_paused`, `_pause_epoch`
together with the configuration globals `TOTAL_SECONDS` and `NUM_ENDS`.
Wall-clock readings (`time.time()`) are passed to each operation as an
explicit `now : ℚ` argument; Python floats are modelled as exact
rationals, and Python's `None` is modelled as `Option.none`.
-/

namespace PaceTimer

/-- The clock globals of src/pace_timer.py (lines 118-121):
`_start_epoch`, `_manual_elapsed_offset`, `_paused`, `_pause_epoch`. -/
structure ClockState where
  start_epoch : ℚ
  manual_elapsed_offset : ℚ
  paused : Bool
  pause_epoch : Option ℚ
  deriving DecidableEq

/-- The state at process start (line 118-121): `_start_epoch = time.time()`,
`_manual_elapsed_offset = 0.0`, `_paused = False`, `_pause_epoch = None`. -/
def initClock (t0 : ℚ) : ClockState :=
  { start_epoch := t0, manual_elapsed_offset := 0, paused := false, pause_epoch := none }

/-- `now_elapsed` (lines 134-138).  When paused it reads `_pause_epoch`;
that value is always set while `_paused` is true (Python would raise a
`TypeError` on `None` there, an unreachable state), so `getD 0` is a
don't-care default. -/
def now_elapsed (now : ℚ) (s : ClockState) : ℚ :=
  if s.paused then
    max 0 ((s.pause_epoch.getD 0 - s.start_epoch) + s.manual_elapsed_offset)
  else
    max 0 ((now - s.start_epoch) + s.manual_elapsed_offset)

/-- `set_elapsed` (lines 141-145): `_start_epoch = time.time()`,
`_manual_elapsed_offset = float(seconds)`. -/
def set_elapsed (now : ℚ) (seconds : ℚ) (s : ClockState) : ClockState :=
  { s with start_epoch := now, manual_elapsed_offset := seconds }

/-- `reset_timer` (lines 148-152): `_start_epoch = time.time()`,
`_manual_elapsed_offset = 0.0`. -/
def reset_timer (now : ℚ) (s : ClockState) : ClockState :=
  { s with start_epoch := now, manual_elapsed_offset := 0 }

/-- `pause_timer` (lines 155-160). -/
def pause_timer (now : ℚ) (s : ClockState) : ClockState :=
  if s.paused then s
  else { s with paused := true, pause_epoch := some now }

/-- `resume_timer` (lines 163-170): `paused_duration = time.time() - _pause_epoch`,
`_start_epoch += paused_duration`, `_paused = False`, `_pause_epoch = None`. -/
def resume_timer (now : ℚ) (s : ClockState) : ClockState :=
  if s.paused then
    { s with start_epoch := s.start_epoch + (now - s.pause_epoch.getD 0),
             paused := false, pause_epoch := none }
  else s

/-- C3: the elapsed value read immediately before `pause()` equals the value
returned by `now_elapsed` at every query time while paused (elapsed is frozen
during pause), and equals the value returned immediately after a subsequent
`resume()` (no jump across resume). -/
theorem C3_pause_resume_continuity (s : ClockState) (t tq t2 : ℚ) :
    now_elapsed tq (pause_timer t s) = now_elapsed t s ∧
    now_elapsed t2 (resume_timer t2 (pause_timer t s)) = now_elapsed t s := by
  cases s with
  | mk start off p pe =>
    cases p with
    | false =>
      constructor
      · simp [pause_timer, now_elapsed]
      · simp [pause_timer, resume_timer, now_elapsed]
        ring_nf
    | true =>
      constructor
      · simp [pause_timer, now_elapsed]
      · simp [pause_timer, resume_timer, now_elapsed]
        ring_nf

/-- C8: `pause()` and `resume()` are idempotent: a second consecutive call
(at any later wall-clock instant) leaves the state exactly as after the
first call. -/
theorem C8_pause_resume_idempotent (s : ClockState) (t1 t2 : ℚ) :
    pause_timer t2 (pause_timer t1 s) = pause_timer t1 s ∧
    resume_timer t2 (resume_timer t1 s) = resume_timer t1 s := by
  cases s with
  | mk start off p pe =>
    cases p with
    | false => constructor <;> simp [pause_timer, resume_timer]
    | true => constructor <;> simp [pause_timer, resume_timer]

/-- C1 counterexample: the set-elapsed round-trip fails while paused.
Start the clock at t=0, pause at t=100, then at t=200 call
`set_elapsed(50)` and immediately query `now_elapsed`: the paused branch
reads `_pause_epoch - _start_epoch + _manual_elapsed_offset
= 100 - 200 + 50 = -50`, floored to `0`, not `50`. -/
theorem C1_counterexample_roundtrip_fails_while_paused :
    now_elapsed 200 (set_elapsed 200 50 (pause_timer 100 (initClock 0))) ≠ 50 := by
  norm_num [now_elapsed, set_elapsed, pause_timer, initClock]

/-- C1 (amended): for every x ≥ 0, `set_elapsed x` leaves the paused flag
unchanged, and an immediate `now_elapsed` query returns x when the clock is
running; while paused the query instead returns
`max 0 (pauseEpoch - now + x)`, so the round-trip holds while paused only
when the pause instant coincides with the set instant. -/
theorem C1_set_elapsed_roundtrip (s : ClockState) (t x : ℚ) (hx : 0 ≤ x) :
    (set_elapsed t x s).paused = s.paused ∧
    (s.paused = false → now_elapsed t (set_elapsed t x s) = x) ∧
    (s.paused = true →
      now_elapsed t (set_elapsed t x s) = max 0 (s.pause_epoch.getD 0 - t + x)) := by
  refine ⟨rfl, ?_, ?_⟩
  · intro hp
    simp [set_elapsed, now_elapsed, hp, hx]
  · intro hp
    simp [set_elapsed, now_elapsed, hp]

/-- Concrete instantiation of the amended C1 round-trip theorem. -/
theorem C1_set_elapsed_roundtrip_witness :
    (set_elapsed 200 50 (initClock 0)).paused = (initClock 0).paused ∧
    ((initClock 0).paused = false → now_elapsed 200 (set_elapsed 200 50 (initClock 0)) = 50) ∧
    ((initClock 0).paused = true →
      now_elapsed 200 (set_elapsed 200 50 (initClock 0)) =
        max 0 ((initClock 0).pause_epoch.getD 0 - 200 + 50)) :=
  C1_set_elapsed_roundtrip (initClock 0) 200 50 (by norm_num)

/-
Boundary parsing.  Query-parameter strings are modelled as `List Char`
(kernel-reducible, unlike `String` operations).  Python's `str.strip()`,
`str.split(":")`, `int(...)` and `float(...)` are modelled below; a parse
that raises `ValueError` in Python is `none` here.
-/

/-- Python `str.strip()`: drop whitespace from both ends. -/
def pyStrip (l : List Char) : List Char :=
  ((l.dropWhile Char.isWhitespace).reverse.dropWhile Char.isWhitespace).reverse

/-- Python `str.split(":")` (note: `"".split(":") == [""]`, so the result
is always non-empty). -/
def splitOnColon : List Char → List (List Char)
  | [] => [[]]
  | c :: rest =>
      if c = ':' then [] :: splitOnColon rest
      else
        match splitOnColon rest with
        | [] => [[c]]
        | p :: ps => (c :: p) :: ps

/-- Decimal value of a digit list (most significant first). -/
def digitsToNat (l : List Char) : ℕ :=
  l.foldl (fun acc c => 10 * acc + (c.toNat - 48)) 0

/-- Python `int(str)` on a query-parameter string: optional surrounding
whitespace, optional sign, then one or more decimal digits; anything else
raises `ValueError`, modelled as `none`.  (Underscore separators and
non-ASCII digits, which Python also accepts, are not modelled; no claim
depends on them.) -/
def pyParseInt (str : List Char) : Option ℤ :=
  match pyStrip str with
  | [] => none
  | '+' :: rest =>
      if rest ≠ [] ∧ rest.all Char.isDigit then some (digitsToNat rest : ℤ) else none
  | '-' :: rest =>
      if rest ≠ [] ∧ rest.all Char.isDigit then some (-(digitsToNat rest : ℤ)) else none
  | l => if l.all Char.isDigit then some (digitsToNat l : ℤ) else none

/-- Unsigned decimal forms accepted by Python `float(str)`:
`d+`, `d+.`, `d+.d+`, `.d+`.  (Exponent, `inf` and `nan` forms are not
modelled; no claim depends on them.) -/
def pyParseFloatCore (l : List Char) : Option ℚ :=
  let intPart := l.takeWhile Char.isDigit
  let rest := l.dropWhile Char.isDigit
  match rest with
  | [] => if intPart.isEmpty then none else some (digitsToNat intPart : ℚ)
  | '.' :: fracPart =>
      if fracPart.all Char.isDigit && (!intPart.isEmpty || !fracPart.isEmpty) then
        some ((digitsToNat intPart : ℚ)
              + (digitsToNat fracPart : ℚ) / ((10 : ℚ) ^ fracPart.length))
      else none
  | _ => none

/-- Python `float(str)`: optional surrounding whitespace and sign around a
decimal literal. -/
def pyParseFloat (str : List Char) : Option ℚ :=
  match pyStrip str with
  | '+' :: rest => pyParseFloatCore rest
  | '-' :: rest => (pyParseFloatCore rest).map Neg.neg
  | l => pyParseFloatCore l

/-- Python `int(float)`: truncation toward zero. -/
def pyInt (q : ℚ) : ℤ :=
  if 0 ≤ q then ((q.num.natAbs / q.den : ℕ) : ℤ)
  else -((q.num.natAbs / q.den : ℕ) : ℤ)

/-- `parse_hms_to_seconds` (lines 173-183): split on `":"`, accept 1, 2 or
3 parts (`SS`, `MM:SS`, `H:MM:SS`); any other part count, or a part that
`int()` rejects, raises `ValueError` (modelled as `none`). -/
def parse_hms_to_seconds (s : List Char) : Option ℤ :=
  match splitOnColon (pyStrip s) with
  | [p] => pyParseInt p
  | [m, sec] => do
      let mv ← pyParseInt m
      let sv ← pyParseInt sec
      pure (mv * 60 + sv)
  | [h, m, sec] => do
      let hv ← pyParseInt h
      let mv ← pyParseInt m
      let sv ← pyParseInt sec
      pure (hv * 3600 + mv * 60 + sv)
  | _ => none

/-- The clock globals together with the configuration globals
`TOTAL_SECONDS` and `NUM_ENDS` (lines 107-108). -/
structure SysState where
  clock : ClockState
  TOTAL_SECONDS : ℤ
  NUM_ENDS : ℤ
  deriving DecidableEq

/-- Process-start state: fresh clock plus the configured total and ends. -/
def initState (t0 : ℚ) (tot n : ℤ) : SysState :=
  { clock := initClock t0, TOTAL_SECONDS := tot, NUM_ENDS := n }

/-- The `/set_remaining` handler (lines 240-262).  Result is
`(ok?, state)`: `false` is an HTTP 400 rejection.  The handler reads
`total_seconds()`, parses `seconds` (as `float`) or `time` (via
`parse_hms_to_seconds`), clamps `rem` into `[0, total]`, and calls
`set_elapsed(total - rem)`. -/
def set_remaining_handler (now : ℚ) (seconds_param time_param : Option (List Char))
    (s : SysState) : Bool × SysState :=
  let tot := s.TOTAL_SECONDS
  if seconds_param = none ∧ time_param = none then (false, s)
  else
    let remOpt : Option ℚ :=
      match seconds_param with
      | some sp => pyParseFloat sp
      | none => (parse_hms_to_seconds (time_param.getD [])).map (fun z => (z : ℚ))
    match remOpt with
    | none => (false, s)
    | some rem0 =>
        let rem := max 0 (min rem0 (tot : ℚ))
        let elapsed_to_set := (tot : ℚ) - rem
        (true, { s with clock := set_elapsed now elapsed_to_set s.clock })

/-- The `/set_total` handler (lines 265-286): parse `seconds` (as
`int(float(...))`) or `time`, reject `new_total <= 0`, read the current
elapsed, store the new total, and clamp elapsed down when it exceeds the
new total.  NOTE: in the source the clamp branch calls `set_elapsed()`
while already holding the non-reentrant `state_lock`, so at runtime that
branch deadlocks before mutating the clock (see the lock-trace model
below); this definition records the state transition the code writes out.
`now1` is the `time.time()` inside `now_elapsed`, `now2` the one inside
`set_elapsed`. -/
def set_total_handler (now1 now2 : ℚ) (seconds_param time_param : Option (List Char))
    (s : SysState) : Bool × SysState :=
  if seconds_param = none ∧ time_param = none then (false, s)
  else
    let ntOpt : Option ℤ :=
      match seconds_param with
      | some sp => (pyParseFloat sp).map pyInt
      | none => parse_hms_to_seconds (time_param.getD [])
    match ntOpt with
    | none => (false, s)
    | some new_total =>
        if new_total ≤ 0 then (false, s)
        else
          let el := now_elapsed now1 s.clock
          let s1 : SysState := { s with TOTAL_SECONDS := new_total }
          if el > (new_total : ℚ) then
            (true, { s1 with clock := set_elapsed now2 (new_total : ℚ) s1.clock })
          else (true, s1)

/-- The `/set_ends` handler (lines 289-303): `if not count` rejects a
missing or empty parameter; `int(count)` failures and `n < 1` are
rejected; otherwise `NUM_ENDS = n`. -/
def set_ends_handler (count : Option (List Char)) (s : SysState) : Bool × SysState :=
  match count with
  | none => (false, s)
  | some c =>
      if c = [] then (false, s)
      else
        match pyParseInt c with
        | none => (false, s)
        | some n => if n < 1 then (false, s) else (true, { s with NUM_ENDS := n })

/-- The `/add_time` handler (lines 306-315): `set_elapsed(now_elapsed() + 60)`. -/
def add_time_handler (now : ℚ) (s : SysState) : SysState :=
  { s with clock := set_elapsed now (now_elapsed now s.clock + 60) s.clock }

/-- The `/subtract_time` handler (lines 318-327):
`set_elapsed(max(0, now_elapsed() - 60))`. -/
def subtract_time_handler (now : ℚ) (s : SysState) : SysState :=
  { s with clock := set_elapsed now (max 0 (now_elapsed now s.clock - 60)) s.clock }

/-- `now_elapsed` never returns a negative value (both branches floor at 0). -/
theorem now_elapsed_nonneg (now : ℚ) (s : ClockState) : 0 ≤ now_elapsed now s := by
  unfold now_elapsed
  split <;> exact le_max_left _ _

/-- One frame of the progress computation in `main` (lines 588-593, 613):
`frac` is `max(0.0, min(1.0, el / tot))` with `tot = float(total) or 1.0`,
`end_units = frac * N`, `full_boxes = int(end_units)`,
`part_rem` models the Python variable holding `end_units - full_boxes`,
`current_idx = min(N - 1, max(0, full_boxes))`. -/
structure Progress where
  frac : ℚ
  end_units : ℚ
  full_boxes : ℤ
  part_rem : ℚ
  current_idx : ℤ
  deriving DecidableEq

/-- The progress computation of the render loop (lines 588-593 and 613),
as a pure function of the elapsed seconds `el`, the configured total, and
the number of boxes `N = len(box_rects)`. -/
def computeProgress (el : ℚ) (totalSeconds : ℤ) (N : ℕ) : Progress :=
  let tot : ℚ := if (totalSeconds : ℚ) = 0 then 1 else (totalSeconds : ℚ)
  let frac : ℚ := max 0 (min 1 (el / tot))
  let end_units : ℚ := frac * (N : ℚ)
  let full_boxes : ℤ := pyInt end_units
  let part_rem : ℚ := end_units - (full_boxes : ℚ)
  let current_idx : ℤ := min ((N : ℤ) - 1) (max 0 full_boxes)
  { frac := frac, end_units := end_units, full_boxes := full_boxes,
    part_rem := part_rem, current_idx := current_idx }

/-- A `pygame.Rect` as produced by `recompute_boxes`. -/
structure Box where
  x : ℤ
  y : ℤ
  w : ℤ
  h : ℤ
  deriving DecidableEq

/-- `recompute_boxes` (lines 518-529) with the screen-geometry constants
as parameters.  `N = max(1, N)`; `box_w` is Python true division followed
by `int(...)` truncation; `box_y` uses Python `//`, i.e. floor division. -/
def recompute_boxes (grid_width box_margin grid_h grid_top grid_bottom grid_left : ℤ)
    (N0 : ℤ) : List Box :=
  let N : ℤ := max 1 N0
  let box_w : ℤ := pyInt (((grid_width - (N + 1) * box_margin : ℤ) : ℚ) / (N : ℚ))
  let box_h : ℤ := min grid_h (grid_bottom - grid_top)
  let box_y : ℤ := grid_top + Int.fdiv (grid_bottom - grid_top - box_h) 2
  (List.range N.toNat).map fun (i : ℕ) =>
    { x := grid_left + box_margin + (i : ℤ) * (box_w + box_margin),
      y := box_y, w := box_w, h := box_h }

/-- Fill width drawn in box `idx` (lines 595-602): boxes below `full_boxes`
are filled to `rect.width - 6`, the box at `full_boxes` gets the
fractional remainder, later boxes get 0. -/
def fill_w (rectW : ℤ) (full_boxes : ℤ) (part_rem : ℚ) (idx : ℕ) : ℤ :=
  if (idx : ℤ) < full_boxes then rectW - 6
  else if (idx : ℤ) = full_boxes then pyInt (((rectW : ℚ) - 6) * part_rem)
  else 0

/-- The box list always has `max 1 N0` elements. -/
theorem recompute_boxes_length (gw bm gh gt gb gl N0 : ℤ) :
    (recompute_boxes gw bm gh gt gb gl N0).length = (max 1 N0).toNat := by
  unfold recompute_boxes
  rw [List.length_map, List.length_range]

/-- C4: for every elapsed ≥ 0, every total, and every numEnds ≥ 1, the
progress fraction lies in [0, 1] and the pointer index lies in
[0, numEnds - 1]; in particular `box_rects[current_idx]` is in bounds
(for any screen geometry), even when elapsed exceeds total. -/
theorem C4_progress_bounds (el : ℚ) (totalSeconds : ℤ) (N : ℕ)
    (_hel : 0 ≤ el) (hN : 1 ≤ N) :
    0 ≤ (computeProgress el totalSeconds N).frac ∧
    (computeProgress el totalSeconds N).frac ≤ 1 ∧
    0 ≤ (computeProgress el totalSeconds N).current_idx ∧
    (computeProgress el totalSeconds N).current_idx ≤ (N : ℤ) - 1 ∧
    ∀ gw bm gh gt gb gl : ℤ,
      (computeProgress el totalSeconds N).current_idx.toNat
        < (recompute_boxes gw bm gh gt gb gl (N : ℤ)).length := by
  have hfrac0 : 0 ≤ (computeProgress el totalSeconds N).frac := le_max_left _ _
  have hfrac1 : (computeProgress el totalSeconds N).frac ≤ 1 :=
    max_le (by norm_num) (min_le_left _ _)
  have hN1 : (1 : ℤ) ≤ (N : ℤ) := mod_cast hN
  have hidx0 : 0 ≤ (computeProgress el totalSeconds N).current_idx :=
    le_min (by omega) (le_max_left _ _)
  have hidx1 : (computeProgress el totalSeconds N).current_idx ≤ (N : ℤ) - 1 :=
    min_le_left _ _
  refine ⟨hfrac0, hfrac1, hidx0, hidx1, ?_⟩
  intro gw bm gh gt gb gl
  rw [recompute_boxes_length]
  have hmax : max (1 : ℤ) (N : ℤ) = (N : ℤ) := max_eq_right hN1
  rw [hmax]
  omega

/-- Concrete instantiation of C4 (elapsed has overrun the total). -/
theorem C4_progress_bounds_witness :
    0 ≤ (computeProgress 9000 7200 8).frac ∧
    (computeProgress 9000 7200 8).frac ≤ 1 ∧
    0 ≤ (computeProgress 9000 7200 8).current_idx ∧
    (computeProgress 9000 7200 8).current_idx ≤ (8 : ℤ) - 1 ∧
    ∀ gw bm gh gt gb gl : ℤ,
      (computeProgress 9000 7200 8).current_idx.toNat
        < (recompute_boxes gw bm gh gt gb gl (8 : ℤ)).length :=
  C4_progress_bounds 9000 7200 8 (by norm_num) (by norm_num)

/-- C5: with total = 7200 and N = 8 boxes, elapsed = 7200 gives
fraction 1, end_units 8, full_boxes 8, zero fractional remainder, pointer
index 7 (clamped to the last box), and every one of the 8 boxes is drawn
with the full fill width `rect.width - 6` — the partial branch
(`idx == full_boxes`) is never taken, so no partial segment is drawn
beyond the last box. -/
theorem C5_elapsed_equals_total_scenario :
    computeProgress 7200 7200 8 =
      { frac := 1, end_units := 8, full_boxes := 8, part_rem := 0, current_idx := 7 } ∧
    ∀ rectW : ℤ,
      (List.range 8).map
          (fill_w rectW (computeProgress 7200 7200 8).full_boxes
            (computeProgress 7200 7200 8).part_rem)
        = List.replicate 8 (rectW - 6) := by
  have hdiv : (7200 : ℚ) / 7200 = 1 := by norm_num
  have hpy : pyInt 8 = 8 := by
    simp [pyInt]
  have hp : computeProgress 7200 7200 8 =
      { frac := 1, end_units := 8, full_boxes := 8, part_rem := 0, current_idx := 7 } := by
    simp only [computeProgress, hdiv]
    norm_num [hpy]
  refine ⟨hp, ?_⟩
  intro rectW
  rw [hp]
  have hr : List.range 8 = [0, 1, 2, 3, 4, 5, 6, 7] := by rfl
  rw [hr]
  simp [fill_w]

/-- C6: `add_time` stores `current elapsed + 60` with no upper clamp (so
the stored elapsed exceeds the total whenever the current elapsed is
within 60s of it or beyond), `subtract_time` stores
`max 0 (current elapsed - 60)`, and `set_remaining` clamps the requested
remaining into `[0, total]` before computing `total - remaining`.
The observable equalities for a running clock are included. -/
theorem C6_quick_adjust_asymmetry (s : SysState) (now : ℚ)
    (htot : 0 ≤ s.TOTAL_SECONDS) :
    ((add_time_handler now s).clock.manual_elapsed_offset
        = now_elapsed now s.clock + 60) ∧
    ((s.TOTAL_SECONDS : ℚ) ≤ now_elapsed now s.clock →
        (s.TOTAL_SECONDS : ℚ) < (add_time_handler now s).clock.manual_elapsed_offset) ∧
    (s.clock.paused = false →
        now_elapsed now (add_time_handler now s).clock
          = now_elapsed now s.clock + 60) ∧
    ((subtract_time_handler now s).clock.manual_elapsed_offset
        = max 0 (now_elapsed now s.clock - 60)) ∧
    (∀ (sp : List Char) (r : ℚ), pyParseFloat sp = some r →
        (set_remaining_handler now (some sp) none s).2.clock
            = set_elapsed now
                ((s.TOTAL_SECONDS : ℚ) - max 0 (min r (s.TOTAL_SECONDS : ℚ))) s.clock ∧
          0 ≤ max 0 (min r (s.TOTAL_SECONDS : ℚ)) ∧
          max 0 (min r (s.TOTAL_SECONDS : ℚ)) ≤ (s.TOTAL_SECONDS : ℚ)) := by
  have hnn : 0 ≤ now_elapsed now s.clock := now_elapsed_nonneg now s.clock
  refine ⟨?_, ?_, ?_, ?_, ?_⟩
  · simp [add_time_handler, set_elapsed]
  · intro h
    simp only [add_time_handler, set_elapsed]
    linarith
  · intro hp
    simp only [add_time_handler]
    generalize hE : now_elapsed now s.clock = e at hnn ⊢
    simp [now_elapsed, set_elapsed, hp]
    linarith
  · simp [subtract_time_handler, set_elapsed]
  · intro sp r hr
    refine ⟨?_, le_max_left _ _, ?_⟩
    · simp [set_remaining_handler, hr]
    · exact max_le (by exact_mod_cast htot) (min_le_right _ _)

/-- Concrete instantiation of C6: total 7200, elapsed 7200 (running),
adjust strings parsed from "100". -/
theorem C6_quick_adjust_asymmetry_witness :
    (((add_time_handler 0 (initState 0 7200 8)).clock.manual_elapsed_offset
        = now_elapsed 0 (initState 0 7200 8).clock + 60) ∧
    (((7200 : ℤ) : ℚ) ≤ now_elapsed 0 (initState 0 7200 8).clock →
        ((7200 : ℤ) : ℚ)
          < (add_time_handler 0 (initState 0 7200 8)).clock.manual_elapsed_offset) ∧
    ((initState 0 7200 8).clock.paused = false →
        now_elapsed 0 (add_time_handler 0 (initState 0 7200 8)).clock
          = now_elapsed 0 (initState 0 7200 8).clock + 60) ∧
    ((subtract_time_handler 0 (initState 0 7200 8)).clock.manual_elapsed_offset
        = max 0 (now_elapsed 0 (initState 0 7200 8).clock - 60)) ∧
    (∀ (sp : List Char) (r : ℚ), pyParseFloat sp = some r →
        (set_remaining_handler 0 (some sp) none (initState 0 7200 8)).2.clock
            = set_elapsed 0
                (((7200 : ℤ) : ℚ) - max 0 (min r ((7200 : ℤ) : ℚ)))
                (initState 0 7200 8).clock ∧
          0 ≤ max 0 (min r ((7200 : ℤ) : ℚ)) ∧
          max 0 (min r ((7200 : ℤ) : ℚ)) ≤ ((7200 : ℤ) : ℚ))) :=
  C6_quick_adjust_asymmetry (initState 0 7200 8) 0 (by decide)

/-- C7: every invalid request to `set_remaining`, `set_total` or
`set_ends` — missing parameter, malformed number or time string
(including a `":"`-split part count other than 1, 2 or 3), non-positive
total, or segment count below 1 — is answered with a rejection
(`ok = false`) and leaves the whole state unchanged. -/
theorem C7_invalid_input_rejected (s : SysState) (now now2 : ℚ) :
    (set_remaining_handler now none none s = (false, s)) ∧
    (∀ tp, parse_hms_to_seconds tp = none →
        set_remaining_handler now none (some tp) s = (false, s)) ∧
    (∀ sp, pyParseFloat sp = none →
        set_remaining_handler now (some sp) none s = (false, s)) ∧
    (set_total_handler now now2 none none s = (false, s)) ∧
    (∀ tp, parse_hms_to_seconds tp = none →
        set_total_handler now now2 none (some tp) s = (false, s)) ∧
    (∀ sp, pyParseFloat sp = none →
        set_total_handler now now2 (some sp) none s = (false, s)) ∧
    (∀ sp r, pyParseFloat sp = some r → pyInt r ≤ 0 →
        set_total_handler now now2 (some sp) none s = (false, s)) ∧
    (∀ tp z, parse_hms_to_seconds tp = some z → z ≤ 0 →
        set_total_handler now now2 none (some tp) s = (false, s)) ∧
    (set_ends_handler none s = (false, s)) ∧
    (set_ends_handler (some []) s = (false, s)) ∧
    (∀ c, pyParseInt c = none → set_ends_handler (some c) s = (false, s)) ∧
    (∀ c n, pyParseInt c = some n → n < 1 → set_ends_handler (some c) s = (false, s)) ∧
    parse_hms_to_seconds "1:2:3:4".toList = none := by
  refine ⟨?_, ?_, ?_, ?_, ?_, ?_, ?_, ?_, ?_, ?_, ?_, ?_, ?_⟩
  · simp [set_remaining_handler]
  · intro tp htp
    simp [set_remaining_handler, htp]
  · intro sp hsp
    simp [set_remaining_handler, hsp]
  · simp [set_total_handler]
  · intro tp htp
    simp [set_total_handler, htp]
  · intro sp hsp
    simp [set_total_handler, hsp]
  · intro sp r hsp hr
    simp [set_total_handler, hsp, hr]
  · intro tp z htp hz
    simp [set_total_handler, htp, hz]
  · simp [set_ends_handler]
  · simp [set_ends_handler]
  · intro c hc
    by_cases hce : c = []
    · simp [set_ends_handler, hce]
    · simp [set_ends_handler, hce, hc]
  · intro c n hc hn
    by_cases hce : c = []
    · simp [set_ends_handler, hce]
    · simp [set_ends_handler, hce, hc, hn]
  · decide

/-- Concrete instantiation of C7: rejected requests with malformed
strings "abc", "x:y", a zero total, and a zero segment count, against the
default configuration. -/
theorem C7_invalid_input_rejected_witness :
    (set_remaining_handler 0 none (some "x:y".toList) (initState 0 7200 8)
        = (false, initState 0 7200 8)) ∧
    (set_remaining_handler 0 (some "abc".toList) none (initState 0 7200 8)
        = (false, initState 0 7200 8)) ∧
    (set_total_handler 0 0 (some "0".toList) none (initState 0 7200 8)
        = (false, initState 0 7200 8)) ∧
    (set_total_handler 0 0 none (some "1:2:3:4".toList) (initState 0 7200 8)
        = (false, initState 0 7200 8)) ∧
    (set_ends_handler (some "0".toList) (initState 0 7200 8)
        = (false, initState 0 7200 8)) ∧
    (set_ends_handler (some "zz".toList) (initState 0 7200 8)
        = (false, initState 0 7200 8)) :=
  ⟨(C7_invalid_input_rejected (initState 0 7200 8) 0 0).2.1 "x:y".toList (by decide),
   (C7_invalid_input_rejected (initState 0 7200 8) 0 0).2.2.1 "abc".toList (by decide),
   (C7_invalid_input_rejected (initState 0 7200 8) 0 0).2.2.2.2.2.2.1 "0".toList 0
     (by decide) (by decide),
   (C7_invalid_input_rejected (initState 0 7200 8) 0 0).2.2.2.2.1 "1:2:3:4".toList
     (by decide),
   (C7_invalid_input_rejected (initState 0 7200 8) 0 0).2.2.2.2.2.2.2.2.2.2.2.1
     "0".toList 0 (by decide) (by decide),
   (C7_invalid_input_rejected (initState 0 7200 8) 0 0).2.2.2.2.2.2.2.2.2.2.1
     "zz".toList (by decide)⟩

/-- One timer-affecting request; the wall-clock instants observed inside
the handler are carried by the operation. -/
inductive TimerOp where
  | resetOp (t : ℚ)
  | pauseOp (t : ℚ)
  | resumeOp (t : ℚ)
  | setElapsedOp (t x : ℚ)
  | setRemainingOp (t : ℚ) (sp tp : Option (List Char))
  | setTotalOp (t1 t2 : ℚ) (sp tp : Option (List Char))
  | setEndsOp (c : Option (List Char))
  | addTimeOp (t : ℚ)
  | subtractTimeOp (t : ℚ)

/-- Effect of one request on the shared state. -/
def stepOp : TimerOp → SysState → SysState
  | .resetOp t, s => { s with clock := reset_timer t s.clock }
  | .pauseOp t, s => { s with clock := pause_timer t s.clock }
  | .resumeOp t, s => { s with clock := resume_timer t s.clock }
  | .setElapsedOp t x, s => { s with clock := set_elapsed t x s.clock }
  | .setRemainingOp t sp tp, s => (set_remaining_handler t sp tp s).2
  | .setTotalOp t1 t2 sp tp, s => (set_total_handler t1 t2 sp tp s).2
  | .setEndsOp c, s => (set_ends_handler c s).2
  | .addTimeOp t, s => add_time_handler t s
  | .subtractTimeOp t, s => subtract_time_handler t s

/-- State after a sequence of requests starting from the initial state. -/
def run (ops : List TimerOp) (s : SysState) : SysState :=
  ops.foldl (fun acc op => stepOp op acc) s

/-- C9: in every state reachable from the initial state by any sequence
of operations, `now_elapsed` is non-negative at every query time, is
non-decreasing in the query time while running, and is frozen (the same
at all query times) while paused. -/
theorem C9_elapsed_invariant (ops : List TimerOp) (t0 : ℚ) (tot n : ℤ) (t : ℚ) :
    0 ≤ now_elapsed t (run ops (initState t0 tot n)).clock ∧
    ((run ops (initState t0 tot n)).clock.paused = false →
      ∀ t1 t2 : ℚ, t1 ≤ t2 →
        now_elapsed t1 (run ops (initState t0 tot n)).clock
          ≤ now_elapsed t2 (run ops (initState t0 tot n)).clock) ∧
    ((run ops (initState t0 tot n)).clock.paused = true →
      ∀ t1 t2 : ℚ,
        now_elapsed t1 (run ops (initState t0 tot n)).clock
          = now_elapsed t2 (run ops (initState t0 tot n)).clock) := by
  refine ⟨now_elapsed_nonneg _ _, ?_, ?_⟩
  · intro hp t1 t2 h12
    simp only [now_elapsed, hp]
    rw [if_neg (by simp)]
    rw [if_neg (by simp)]
    exact max_le_max le_rfl (by linarith)
  · intro hp t1 t2
    simp [now_elapsed, hp]

/-- Concrete instantiation of C9: non-negativity, monotone queries on a
running reachable state, and frozen queries on a paused reachable state. -/
theorem C9_elapsed_invariant_witness :
    0 ≤ now_elapsed 1 (run [TimerOp.addTimeOp 0] (initState 0 7200 8)).clock ∧
    now_elapsed 1 (run [TimerOp.addTimeOp 0] (initState 0 7200 8)).clock
      ≤ now_elapsed 2 (run [TimerOp.addTimeOp 0] (initState 0 7200 8)).clock ∧
    now_elapsed 1 (run [TimerOp.pauseOp 0] (initState 0 7200 8)).clock
      = now_elapsed 2 (run [TimerOp.pauseOp 0] (initState 0 7200 8)).clock :=
  ⟨(C9_elapsed_invariant [TimerOp.addTimeOp 0] 0 7200 8 1).1,
   (C9_elapsed_invariant [TimerOp.addTimeOp 0] 0 7200 8 1).2.1
     (by simp [run, stepOp, add_time_handler, set_elapsed, initState, initClock])
     1 2 (by norm_num),
   (C9_elapsed_invariant [TimerOp.pauseOp 0] 0 7200 8 1).2.2
     (by simp [run, stepOp, pause_timer, initState, initClock]) 1 2⟩

/-
Lock model.  `state_lock` is a `threading.Lock`, which is NOT reentrant:
a thread that acquires it while already holding it blocks forever.  Each
core operation is modelled by the sequence of acquire/release events the
handler's thread performs on `state_lock`.
-/

/-- An acquire or release of `state_lock` by the handler's own thread. -/
inductive LockAction where
  | acquire
  | release
  deriving DecidableEq

/-- Whether executing the events in order (starting from the given
held-by-this-thread flag) ever acquires the lock while this same thread
already holds it — a self-deadlock for a non-reentrant lock. -/
def deadlocks : Bool → List LockAction → Bool
  | _, [] => false
  | held, LockAction.acquire :: rest => held || deadlocks true rest
  | _, LockAction.release :: rest => deadlocks false rest

/-- Lock events of `now_elapsed` (lines 134-138): one `with state_lock`
block. -/
def now_elapsed_lockTrace : List LockAction := [LockAction.acquire, LockAction.release]

/-- Lock events of `set_elapsed` (lines 141-145): one `with state_lock`
block. -/
def set_elapsed_lockTrace : List LockAction := [LockAction.acquire, LockAction.release]

/-- Lock events of the `/set_total` handler after validation
(lines 279-284): `el = now_elapsed()` under its own lock acquisition,
then a separate `with state_lock` block that assigns `TOTAL_SECONDS` and,
when `el > new_total`, calls `set_elapsed()` — whose own acquisition
happens before the outer block's release. -/
def set_total_lockTrace (el : ℚ) (new_total : ℤ) : List LockAction :=
  now_elapsed_lockTrace ++ [LockAction.acquire]
    ++ (if el > ((new_total : ℤ) : ℚ) then set_elapsed_lockTrace else [])
    ++ [LockAction.release]

/-- C2 evaluated at the failing input: with elapsed 7200 (set at t = 0 on
a running clock) and a requested new total of 3600, the clamp condition
holds, and the `/set_total` handler's lock-event sequence self-deadlocks:
`set_elapsed` re-acquires the non-reentrant `state_lock` inside the
handler's own `with state_lock` block, so elapsed is never clamped and
the operation never returns. -/
theorem C2_set_total_clamp_deadlocks :
    now_elapsed 0 (set_elapsed 0 7200 (initClock 0)) = 7200 ∧
    deadlocks false
      (set_total_lockTrace (now_elapsed 0 (set_elapsed 0 7200 (initClock 0))) 3600)
      = true := by
  have h1 : now_elapsed 0 (set_elapsed 0 7200 (initClock 0)) = 7200 := by
    norm_num [now_elapsed, set_elapsed, initClock]
  refine ⟨h1, ?_⟩
  rw [h1, set_total_lockTrace, if_pos (by norm_num)]
  rfl

/-- C10 refuted: it is not the case that every `/set_total` execution
completes — in the branch where the current elapsed exceeds the new
total, the handler self-deadlocks on the non-reentrant `state_lock`
(while the non-clamping branch does complete, showing the read and the
clamp are performed under two separate acquisitions rather than one
atomic critical section). -/
theorem C10_set_total_not_lock_safe :
    (∃ (el : ℚ) (new_total : ℤ),
        deadlocks false (set_total_lockTrace el new_total) = true) ∧
    deadlocks false (set_total_lockTrace 1000 3600) = false := by
  constructor
  · refine ⟨7200, 3600, ?_⟩
    rw [set_total_lockTrace, if_pos (by norm_num)]
    rfl
  · rw [set_total_lockTrace, if_neg (by norm_num)]
    rfl

end PaceTimer
